import Mathlib

/-!
Verification development for the KlipDot multi-source image interception
engine (JS prototype: `src/index.js` / `src/clipboard-handler.js`,
`src/terminal-interceptor.js`, `src/comprehensive-interceptor.js`).

The embedding models byte buffers as `List Nat`, strings as `List Char`,
and the screenshot directory as a list of stored files.  External effects
(`sharp(...).png().toFile`, `exec` of clipboard utilities) are modelled by
explicit data: a written file records whether its content is the PNG
re-encoding of some source bytes, and each platform command's outcome is an
explicit parameter of the clipboard read.
-/

namespace KlipDot

/-- Byte buffers (JS `Buffer`) as lists of byte values. -/
abbrev Bytes := List Nat

/-- JS strings as lists of characters. -/
abbrev Str := List Char

/-! ## ImageClassifier on byte buffers: `isImageData` from the stdin
wrapper script generated in `comprehensive-interceptor.js` (lines 191-210). -/

/-- Signature table of the stdin wrapper's `isImageData`: PNG, JPEG, GIF,
BMP, and the entry commented `WEBP` which is the bare RIFF container
prefix `52 49 46 46`. -/
def signatures : List Bytes :=
  [[0x89, 0x50, 0x4E, 0x47],
   [0xFF, 0xD8, 0xFF],
   [0x47, 0x49, 0x46],
   [0x42, 0x4D],
   [0x52, 0x49, 0x46, 0x46]]

/-- `isImageData(buffer)` from the stdin wrapper script: buffers shorter
than 8 bytes are rejected, otherwise the leading bytes are compared
against each signature. -/
def isImageData (buffer : Bytes) : Bool :=
  if buffer.length < 8 then false
  else signatures.any (fun sig => buffer.take sig.length == sig)

/-! ## StdinWatcher output: the `process.stdin.on('end')` handler of the
stdin wrapper script (`comprehensive-interceptor.js` lines 171-189). -/

/-- What the stdin wrapper writes to stdout: either raw bytes or the text
of a stored file's path. -/
inductive StdoutData where
  | bytes (b : Bytes)
  | pathText (p : Str)
deriving DecidableEq

/-- The stdin wrapper's end-of-stream handler: if `isImageData` accepts the
buffered bytes, the stored file's path is emitted (falling back to the raw
bytes when `processImageBuffer` rejects); otherwise the buffered bytes are
emitted unchanged.  `storeOutcome` is the result of the
`processImageBuffer` promise: `some p` on success, `none` on failure. -/
def stdinOutput (stdinData : Bytes) (storeOutcome : Option Str) : StdoutData :=
  if isImageData stdinData then
    match storeOutcome with
    | some filepath => StdoutData.pathText filepath
    | none => StdoutData.bytes stdinData
  else StdoutData.bytes stdinData

/-! ## ImageStore: the screenshot directory and the store operations.

`processImageBuffer` (`comprehensive-interceptor.js` lines 371-387),
`ClipboardHandler.processImagePaste` (`clipboard-handler.js` lines 121-140)
and `TerminalInterceptor.processImageFile`
(`terminal-interceptor.js` lines 373-394) all build a filename
`<tag>-<timestamp>-<uuid8>.png` once and hand it to
`sharp(...).png().toFile(filepath)` with no existence check, no retry and
no deduplication state. -/

/-- Content of a file written into the screenshot directory:
`pngEncoded src` is the result of `sharp(src).png()`, `raw b` would be a
verbatim byte-for-byte copy (no code path of the repository produces it;
it exists so the SVG-verbatim claim is expressible). -/
inductive FileContent where
  | pngEncoded (src : Bytes)
  | raw (b : Bytes)
deriving DecidableEq

/-- One file of the screenshot directory. -/
structure StoredFile where
  name : Str
  content : FileContent
deriving DecidableEq

/-- `sharp(...).toFile(filepath)`: writes the file at `n`, silently
replacing an existing file of the same name, otherwise creating it. -/
def writeFile (files : List StoredFile) (n : Str) (c : FileContent) :
    List StoredFile :=
  if files.any (fun f => f.name == n) then
    files.map (fun f => if f.name == n then ⟨n, c⟩ else f)
  else files ++ [⟨n, c⟩]

/-- Filename built by every store path:
`` `${source}-${timestamp}-${uuid8}.png` `` — the timestamp is the ISO
string with `:` and `.` replaced, the suffix the first 8 uuid chars. -/
def mkFilename (source timestamp rand : Str) : Str :=
  source ++ ('-' :: timestamp) ++ ('-' :: rand) ++ ".png".toList

/-- `ComprehensiveInterceptor.processImageBuffer(buffer, source)`: builds
the filename once from the current time and a fresh uuid slice, re-encodes
the buffer to PNG and writes it, returning the file's path.  No existing
file is consulted, no hash of previous captures is kept. -/
def processImageBuffer (files : List StoredFile) (buffer : Bytes)
    (source timestamp rand : Str) : List StoredFile × Str :=
  let n := mkFilename source timestamp rand
  (writeFile files n (FileContent.pngEncoded buffer), n)

/-- `TerminalInterceptor.processImageFile(filePath)`: same store path with
the fixed tag `terminal`; `fileBytes` are the bytes of the input file that
`sharp(filePath)` reads. -/
def terminalProcessImageFile (files : List StoredFile) (fileBytes : Bytes)
    (timestamp rand : Str) : List StoredFile × Str :=
  let n := mkFilename "terminal".toList timestamp rand
  (writeFile files n (FileContent.pngEncoded fileBytes), n)

/-- One detection event reported by a watcher: the source tag, the raw
bytes observed, the detection time in milliseconds, and the timestamp
string and uuid slice the store call draws when handling it. -/
structure Detection where
  source : Str
  buffer : Bytes
  detectedAt : Nat
  tsString : Str
  rand : Str
deriving DecidableEq

/-- Routing of detections into the shared store: each event is handed to
`processImageBuffer` independently — the coordinator keeps no shared
deduplication state between them. -/
def processDetections (init : List StoredFile) (ds : List Detection) :
    List StoredFile :=
  ds.foldl (fun files d =>
    (processImageBuffer files d.buffer d.source d.tsString d.rand).1) init

/-! ## ImageClassifier on file paths:
`ComprehensiveInterceptor.isImageFile` (lines 329-358). -/

/-- `path.extname(p)`: the extension of the last path component, from its
last dot to the end; empty when the component has no dot or when its only
dot is its leading character. -/
def extname (p : Str) : Str :=
  let base := (p.reverse.takeWhile (fun c => c ≠ '/')).reverse
  let rev := base.reverse
  let revExt := rev.takeWhile (fun c => c ≠ '.')
  match rev.drop revExt.length with
  | [] => []
  | _ :: revPre => if revPre = [] then [] else '.' :: revExt.reverse

/-- The extension allowlist of `isImageFile`. -/
def imageExtensions : List Str :=
  [".png".toList, ".jpg".toList, ".jpeg".toList, ".gif".toList,
   ".bmp".toList, ".webp".toList, ".svg".toList]

/-- Outcome of the filesystem probes `isImageFile` makes: `pathExists` and
`isFile` from `fs.pathExists`/`fs.stat`, and `mimeOut` the trimmed output
of `file --mime-type -b` (`none` when the command errors). -/
structure FileInfo where
  pathExists : Bool
  isFile : Bool
  mimeOut : Option Str
deriving DecidableEq

/-- `ComprehensiveInterceptor.isImageFile(filepath)`: missing paths and
non-files are rejected; a lower-cased extension on the allowlist returns
`true` immediately; only otherwise is the MIME type consulted, accepting
exactly the outputs that start with `image/`. -/
def isImageFile (info : FileInfo) (filepath : Str) : Bool :=
  if !info.pathExists then false
  else if !info.isFile then false
  else if imageExtensions.contains ((extname filepath).map Char.toLower) then
    true
  else
    match info.mimeOut with
    | none => false
    | some m => List.isPrefixOf "image/".toList m

/-! ## ClipboardWatcher: `ClipboardHandler` of `clipboard-handler.js`,
polled by `pollClipboard` (lines 62-77). -/

/-- The `type` tag of a clipboard read result object. -/
inductive ContentType where
  | text
  | image
deriving DecidableEq

/-- One clipboard read result: the JS object literal with its `type` tag
and payload, plus `objId` — the identity of the freshly allocated object.
Every call of `getClipboardContent` resolves with a brand-new object
literal, so no two reads share an `objId`. -/
structure ClipContent where
  typ : ContentType
  data : Bytes
  objId : Nat
deriving DecidableEq

/-- JS strict equality on the values `pollClipboard` compares: `null`
equals only `null`, and two objects are `===` exactly when they are the
same allocation. -/
def jsStrictEq : Option ClipContent → Option ClipContent → Bool
  | none, none => true
  | some a, some b => a.objId == b.objId
  | _, _ => false

/-- `process.platform` branches taken by the handler. -/
inductive Platform where
  | darwin
  | win32
  | linux
deriving DecidableEq

/-- Outcomes of the platform clipboard commands a poll tick may run:
success flag and stdout bytes for `pbpaste`, the `osascript` PNG dump,
`powershell Get-Clipboard` and `xclip -o`. -/
structure ExecResults where
  pbpasteOk : Bool
  pbpasteOut : Bytes
  osascriptOk : Bool
  osascriptOut : Bytes
  powershellOk : Bool
  powershellOut : Bytes
  xclipOk : Bool
  xclipOut : Bytes
deriving DecidableEq

/-- `ClipboardHandler.getClipboardContent()` (lines 79-113): on darwin a
`pbpaste` success yields a text object and otherwise an `osascript`
success yields an image object; on win32 and linux the single text
utility either yields a text object or `null`.  `fresh` is the identity
of the object allocated by the resolving call. -/
def getClipboardContent (p : Platform) (e : ExecResults) (fresh : Nat) :
    Option ClipContent :=
  match p with
  | Platform.darwin =>
    if e.pbpasteOk then some ⟨ContentType.text, e.pbpasteOut, fresh⟩
    else if e.osascriptOk then some ⟨ContentType.image, e.osascriptOut, fresh⟩
    else none
  | Platform.win32 =>
    if e.powershellOk then some ⟨ContentType.text, e.powershellOut, fresh⟩
    else none
  | Platform.linux =>
    if e.xclipOk then some ⟨ContentType.text, e.xclipOut, fresh⟩
    else none

/-- In-memory state of a `ClipboardHandler` together with the observable
effects it has performed: the snapshot `lastClipboardContent`, the
allocation counter for fresh read objects, the screenshot directory, the
clipboard write-backs performed (`replaceClipboardWithPath` calls, in
order), and how many image pastes were processed. -/
structure HandlerState where
  lastClipboardContent : Option ClipContent
  nextObjId : Nat
  files : List StoredFile
  writes : List Str
  processedCount : Nat
deriving DecidableEq

/-- Handler state right after `start()`: `lastClipboardContent = null`. -/
def initState : HandlerState := ⟨none, 0, [], [], 0⟩

/-- `processImagePaste(imageData)` (lines 121-140): builds the
`screenshot-` filename, re-encodes the data to PNG into the screenshot
directory, then replaces the clipboard with the stored file's path. -/
def processImagePaste (st : HandlerState) (imageData : Bytes)
    (timestamp rand : Str) : HandlerState :=
  let n := mkFilename "screenshot".toList timestamp rand
  { st with
    files := writeFile st.files n (FileContent.pngEncoded imageData)
    writes := st.writes ++ [n]
    processedCount := st.processedCount + 1 }

/-- `handleClipboardChange(content)` (lines 115-119): only image-typed
content is processed; text content causes no store and no clipboard
write. -/
def handleClipboardChange (st : HandlerState) (c : ClipContent)
    (timestamp rand : Str) : HandlerState :=
  if c.typ = ContentType.image then processImagePaste st c.data timestamp rand
  else st

/-- One `pollClipboard()` tick (lines 62-77): read the clipboard
(allocating a fresh result object) and, when the result is truthy and
`!==`-different from the snapshot, handle it and update the snapshot. -/
def pollTick (st : HandlerState) (p : Platform) (e : ExecResults)
    (timestamp rand : Str) : HandlerState :=
  let clip := getClipboardContent p e st.nextObjId
  let st1 := { st with nextObjId := st.nextObjId + 1 }
  match clip with
  | none => st1
  | some c =>
    if jsStrictEq (some c) st1.lastClipboardContent then st1
    else
      let st2 := handleClipboardChange st1 c timestamp rand
      { st2 with lastClipboardContent := some c }

end KlipDot

namespace KlipDot

/-- C5: every byte buffer shorter than 8 bytes classifies as non-image;
the classifier fails closed without raising an error. -/
theorem c5_short_buffer_not_image (buffer : Bytes) (h : buffer.length < 8) :
    isImageData buffer = false := by
  simp [isImageData, h]

/-- Witness for C5 at a concrete truncated buffer: the 4-byte PNG
signature alone is still classified as non-image. -/
theorem c5_short_buffer_not_image_witness :
    [0x89, 0x50, 0x4E, 0x47].length < 8 ∧
      isImageData [0x89, 0x50, 0x4E, 0x47] = false :=
  ⟨by decide, c5_short_buffer_not_image [0x89, 0x50, 0x4E, 0x47] (by decide)⟩

/-- Counterexample for C6: a 12-byte WAV header starts with the RIFF
signature but does not carry the `WEBP` tag at offset 8, yet
`isImageData` classifies it as an image. -/
theorem c6_wav_classified_as_image :
    isImageData [0x52, 0x49, 0x46, 0x46, 0x24, 0x00, 0x00, 0x00,
                 0x57, 0x41, 0x56, 0x45] = true ∧
      [0x52, 0x49, 0x46, 0x46, 0x24, 0x00, 0x00, 0x00,
       0x57, 0x41, 0x56, 0x45].take 4 = [0x52, 0x49, 0x46, 0x46] ∧
      ([0x52, 0x49, 0x46, 0x46, 0x24, 0x00, 0x00, 0x00,
        0x57, 0x41, 0x56, 0x45].drop 8).take 4 ≠ [0x57, 0x45, 0x42, 0x50] := by
  decide

/-- C6 amended: the classifier checks only the 4-byte RIFF container
prefix; every buffer of length at least 8 starting with `52 49 46 46` is
classified as an image, whether or not the `WEBP` tag is present at
offset 8. -/
theorem c6_riff_only_check (b : Bytes) (hlen : 8 ≤ b.length)
    (hriff : b.take 4 = [0x52, 0x49, 0x46, 0x46]) :
    isImageData b = true := by
  have hnot : ¬ b.length < 8 := Nat.not_lt.mpr hlen
  simp only [isImageData, hnot, if_false]
  refine List.any_eq_true.mpr ?_
  refine ⟨[0x52, 0x49, 0x46, 0x46], ?_, ?_⟩
  · simp [signatures]
  · simpa using hriff

/-- Witness for the amended C6 at the concrete WAV header. -/
theorem c6_riff_only_check_witness :
    isImageData [0x52, 0x49, 0x46, 0x46, 0x24, 0x00, 0x00, 0x00,
                 0x57, 0x41, 0x56, 0x45] = true :=
  c6_riff_only_check
    [0x52, 0x49, 0x46, 0x46, 0x24, 0x00, 0x00, 0x00, 0x57, 0x41, 0x56, 0x45]
    (by decide) (by decide)

/-- C8: when the buffered stdin bytes classify as non-image, the wrapper's
output is byte-for-byte the input, whatever the store outcome; and the
output is a stored path only when the buffer classified as an image. -/
theorem c8_stdin_passthrough (d : Bytes) (o : Option Str) :
    (isImageData d = false → stdinOutput d o = StdoutData.bytes d) ∧
      (∀ p : Str, stdinOutput d o = StdoutData.pathText p → isImageData d = true) := by
  constructor
  · intro h
    simp [stdinOutput, h]
  · intro p hp
    by_contra hni
    rw [Bool.not_eq_true] at hni
    simp [stdinOutput, hni] at hp

/-- Helper: the file just written is among the files after `writeFile`,
whether the write created it or replaced an existing file. -/
theorem mem_writeFile (files : List StoredFile) (n : Str) (c : FileContent) :
    (⟨n, c⟩ : StoredFile) ∈ writeFile files n c := by
  unfold writeFile
  split
  · rename_i h
    rw [List.any_eq_true] at h
    obtain ⟨f, hf, hfn⟩ := h
    rw [List.mem_map]
    exact ⟨f, hf, by simp [hfn]⟩
  · simp

/-- Counterexample for C1: the same 8-byte PNG payload reported by the
clipboard watcher at t=0ms and the file watcher at t=500ms — inside any
2-second window — yields two stored files; no deduplication occurs and
neither detection is dropped. -/
theorem c1_no_dedup_counterexample :
    (processDetections []
        [⟨"clipboard".toList, [0x89, 0x50, 0x4E, 0x47, 0, 0, 0, 1], 0,
          "t0".toList, "aaaaaaaa".toList⟩,
         ⟨"filewatch".toList, [0x89, 0x50, 0x4E, 0x47, 0, 0, 0, 1], 500,
          "t0".toList, "bbbbbbbb".toList⟩]).length = 2 ∧
      (⟨"clipboard".toList, [0x89, 0x50, 0x4E, 0x47, 0, 0, 0, 1], 0,
        "t0".toList, "aaaaaaaa".toList⟩ : Detection).buffer =
        (⟨"filewatch".toList, [0x89, 0x50, 0x4E, 0x47, 0, 0, 0, 1], 500,
          "t0".toList, "bbbbbbbb".toList⟩ : Detection).buffer ∧
      500 - 0 ≤ 2000 := by
  decide

/-- C1 amended: no deduplication exists — two detections whose generated
filenames differ are both persisted, whatever their byte content or how
close their detection times are; starting from an empty directory the
store ends with exactly two files. -/
theorem c1_both_detections_persisted (d1 d2 : Detection)
    (h : mkFilename d1.source d1.tsString d1.rand ≠
      mkFilename d2.source d2.tsString d2.rand) :
    (processDetections [] [d1, d2]).length = 2 := by
  have hb : (mkFilename d1.source d1.tsString d1.rand ==
      mkFilename d2.source d2.tsString d2.rand) = false :=
    beq_eq_false_iff_ne.mpr h
  simp [processDetections, processImageBuffer, writeFile, hb, h]

/-- Witness for the amended C1 at the two concrete simultaneous
detections of identical bytes. -/
theorem c1_both_detections_persisted_witness :
    (processDetections []
        [⟨"clipboard".toList, [0x89, 0x50, 0x4E, 0x47, 0, 0, 0, 1], 0,
          "t0".toList, "aaaaaaaa".toList⟩,
         ⟨"filewatch".toList, [0x89, 0x50, 0x4E, 0x47, 0, 0, 0, 1], 500,
          "t0".toList, "bbbbbbbb".toList⟩]).length = 2 :=
  c1_both_detections_persisted
    ⟨"clipboard".toList, [0x89, 0x50, 0x4E, 0x47, 0, 0, 0, 1], 0,
      "t0".toList, "aaaaaaaa".toList⟩
    ⟨"filewatch".toList, [0x89, 0x50, 0x4E, 0x47, 0, 0, 0, 1], 500,
      "t0".toList, "bbbbbbbb".toList⟩
    (by decide)

/-- Counterexample for C3: an SVG file (accepted by the classifier through
its `.svg` extension) is not stored verbatim as `.svg` — the store
re-encodes its bytes to PNG and the artifact's name ends in `.png`. -/
theorem c3_svg_rasterized_counterexample :
    isImageFile ⟨true, true, some "image/svg+xml".toList⟩
        "drawing.svg".toList = true ∧
      (terminalProcessImageFile [] [60, 115, 118, 103]
          "t0".toList "aaaaaaaa".toList).1 =
        [⟨mkFilename "terminal".toList "t0".toList "aaaaaaaa".toList,
          FileContent.pngEncoded [60, 115, 118, 103]⟩] ∧
      ".png".toList <:+ (terminalProcessImageFile [] [60, 115, 118, 103]
        "t0".toList "aaaaaaaa".toList).2 ∧
      ¬ (".svg".toList <:+ (terminalProcessImageFile [] [60, 115, 118, 103]
        "t0".toList "aaaaaaaa".toList).2) := by
  decide

/-- C3 amended: every input processed by the store — SVG included — is
re-encoded to PNG and written under a name ending in `.png`; no verbatim
`.svg` path exists. -/
theorem c3_always_png_reencode (files : List StoredFile) (fileBytes : Bytes)
    (timestamp rand : Str) :
    ".png".toList <:+
        (terminalProcessImageFile files fileBytes timestamp rand).2 ∧
      (⟨(terminalProcessImageFile files fileBytes timestamp rand).2,
        FileContent.pngEncoded fileBytes⟩ : StoredFile) ∈
        (terminalProcessImageFile files fileBytes timestamp rand).1 := by
  constructor
  · exact ⟨"terminal".toList ++ ('-' :: timestamp) ++ ('-' :: rand),
      by simp [terminalProcessImageFile, mkFilename, List.append_assoc]⟩
  · exact mem_writeFile files _ _

/-- Counterexample for C7: a plain-text file named with a `.png` extension
is classified as an image — the positive extension check is never
confirmed against the file's content. -/
theorem c7_extension_trusted_counterexample :
    isImageFile ⟨true, true, some "text/plain".toList⟩
        "fake.png".toList = true ∧
      List.isPrefixOf "image/".toList "text/plain".toList = false := by
  decide

/-- C7 amended: for an existing regular file whose lower-cased extension is
on the allowlist, the classifier returns `true` from the extension alone —
the content (MIME) probe is consulted only when the extension is not on
the list, so a non-image file with an image extension classifies as an
image. -/
theorem c7_extension_accepts_without_sniff (info : FileInfo) (p : Str)
    (hx : info.pathExists = true) (hf : info.isFile = true)
    (he : imageExtensions.contains ((extname p).map Char.toLower) = true) :
    isImageFile info p = true := by
  simp [isImageFile, hx, hf]
  exact Or.inl (by simpa using he)

/-- Witness for the amended C7: the text file carrying a `.png` extension
is accepted with its MIME probe reporting `text/plain`. -/
theorem c7_extension_accepts_without_sniff_witness :
    isImageFile ⟨true, true, some "text/plain".toList⟩
      "fake.png".toList = true :=
  c7_extension_accepts_without_sniff
    ⟨true, true, some "text/plain".toList⟩ "fake.png".toList
    (by decide) (by decide) (by decide)

/-- Counterexample for C4: when the generated name collides with an
existing stored file, the store writes anyway — the old content
`pngEncoded [1,2,3]` is silently replaced by the new capture, with no
retry and no `NameExhausted` error. -/
theorem c4_silent_overwrite_counterexample :
    (processImageBuffer
        [⟨mkFilename "stdin".toList "t0".toList "aaaaaaaa".toList,
          FileContent.pngEncoded [1, 2, 3]⟩]
        [9, 9, 9, 9] "stdin".toList "t0".toList "aaaaaaaa".toList).1 =
      [⟨mkFilename "stdin".toList "t0".toList "aaaaaaaa".toList,
        FileContent.pngEncoded [9, 9, 9, 9]⟩] := by
  decide

/-- C4 amended: the filename is generated once with no existence check;
when a file of that exact name already exists, the store silently
overwrites it in place (the directory does not grow and no error is
raised) instead of regenerating the suffix. -/
theorem c4_overwrite_semantics (files : List StoredFile) (b : Bytes)
    (source timestamp rand : Str)
    (h : files.any
      (fun f => f.name == mkFilename source timestamp rand) = true) :
    (processImageBuffer files b source timestamp rand).1 =
      files.map (fun f =>
        if f.name == mkFilename source timestamp rand then
          ⟨mkFilename source timestamp rand, FileContent.pngEncoded b⟩
        else f) ∧
      (processImageBuffer files b source timestamp rand).1.length =
        files.length := by
  refine ⟨?_, ?_⟩ <;> simp [processImageBuffer, writeFile, h]

/-- Witness for the amended C4 at the concrete collision. -/
theorem c4_overwrite_semantics_witness :
    ([⟨mkFilename "stdin".toList "t0".toList "aaaaaaaa".toList,
        FileContent.pngEncoded [1, 2, 3]⟩] : List StoredFile).any
      (fun f => f.name ==
        mkFilename "stdin".toList "t0".toList "aaaaaaaa".toList) = true ∧
      (processImageBuffer
          [⟨mkFilename "stdin".toList "t0".toList "aaaaaaaa".toList,
            FileContent.pngEncoded [1, 2, 3]⟩]
          [9, 9, 9, 9] "stdin".toList "t0".toList "aaaaaaaa".toList).1.length =
        ([⟨mkFilename "stdin".toList "t0".toList "aaaaaaaa".toList,
          FileContent.pngEncoded [1, 2, 3]⟩] : List StoredFile).length :=
  ⟨by decide,
    (c4_overwrite_semantics
      [⟨mkFilename "stdin".toList "t0".toList "aaaaaaaa".toList,
        FileContent.pngEncoded [1, 2, 3]⟩]
      [9, 9, 9, 9] "stdin".toList "t0".toList "aaaaaaaa".toList (by decide)).2⟩

/-- Witness for C8: ten arbitrary non-image bytes pass through unchanged
even when a store outcome is available. -/
theorem c8_stdin_passthrough_witness :
    isImageData [1, 2, 3, 4, 5, 6, 7, 8, 9, 10] = false ∧
      stdinOutput [1, 2, 3, 4, 5, 6, 7, 8, 9, 10] (some ['x']) =
        StdoutData.bytes [1, 2, 3, 4, 5, 6, 7, 8, 9, 10] :=
  ⟨by decide,
    (c8_stdin_passthrough [1, 2, 3, 4, 5, 6, 7, 8, 9, 10] (some ['x'])).1 (by decide)⟩

/-- Helper: a tick whose clipboard read yields only text (or null) stores
nothing, writes nothing to the clipboard and processes nothing. -/
theorem pollTick_preserves_of_text (st : HandlerState) (p : Platform)
    (e : ExecResults) (timestamp rand : Str)
    (h : (getClipboardContent p e st.nextObjId).all
      (fun c => c.typ == ContentType.text) = true) :
    (pollTick st p e timestamp rand).files = st.files ∧
      (pollTick st p e timestamp rand).writes = st.writes ∧
      (pollTick st p e timestamp rand).processedCount = st.processedCount := by
  simp only [pollTick]
  cases hc : getClipboardContent p e st.nextObjId with
  | none => exact ⟨rfl, rfl, rfl⟩
  | some c =>
    rw [hc] at h
    simp only [Option.all_some, beq_iff_eq] at h
    by_cases hj : jsStrictEq (some c) st.lastClipboardContent = true
    · simp [hj]
    · simp [hj, handleClipboardChange, h]

/-- C2 code evaluation at the failing input: the same PNG payload sits on
the clipboard for two consecutive poll ticks (`pbpaste` failing,
`osascript` returning identical bytes), so both reads carry an equal
content fingerprint — yet the handler stores the image on both ticks
(two processed pastes, two stored files), because `!==` compares the
identity of the freshly allocated result objects, which always differ. -/
theorem c2_unchanged_clipboard_reprocessed :
    ((getClipboardContent Platform.darwin
        ⟨false, [], true, [0x89, 0x50, 0x4E, 0x47, 0, 0, 0, 1],
          false, [], false, []⟩ 0).map
        (fun c => (c.typ, c.data)) =
      (getClipboardContent Platform.darwin
        ⟨false, [], true, [0x89, 0x50, 0x4E, 0x47, 0, 0, 0, 1],
          false, [], false, []⟩ 1).map
        (fun c => (c.typ, c.data))) ∧
      (pollTick (pollTick initState Platform.darwin
          ⟨false, [], true, [0x89, 0x50, 0x4E, 0x47, 0, 0, 0, 1],
            false, [], false, []⟩
          "t1".toList "aaaaaaaa".toList) Platform.darwin
          ⟨false, [], true, [0x89, 0x50, 0x4E, 0x47, 0, 0, 0, 1],
            false, [], false, []⟩
          "t2".toList "bbbbbbbb".toList).processedCount = 2 ∧
      (pollTick (pollTick initState Platform.darwin
          ⟨false, [], true, [0x89, 0x50, 0x4E, 0x47, 0, 0, 0, 1],
            false, [], false, []⟩
          "t1".toList "aaaaaaaa".toList) Platform.darwin
          ⟨false, [], true, [0x89, 0x50, 0x4E, 0x47, 0, 0, 0, 1],
            false, [], false, []⟩
          "t2".toList "bbbbbbbb".toList).files.length = 2 := by
  decide

/-- C9: on every tick whose clipboard read yields text content — which is
what a clipboard holding a bare filesystem path yields, since the text
utility succeeds on it — no `replaceClipboardWithPath` write occurs, so
path content already on the clipboard is never overwritten. -/
theorem c9_path_content_never_overwritten (st : HandlerState) (p : Platform)
    (e : ExecResults) (timestamp rand : Str)
    (h : (getClipboardContent p e st.nextObjId).all
      (fun c => c.typ == ContentType.text) = true) :
    (pollTick st p e timestamp rand).writes = st.writes :=
  (pollTick_preserves_of_text st p e timestamp rand h).2.1

/-- Witness for C9: a linux tick reading the bare path `/tmp/a.png` from
the clipboard performs no clipboard write. -/
theorem c9_path_content_never_overwritten_witness :
    ((getClipboardContent Platform.linux
        ⟨false, [], false, [], false, [],
          true, [47, 116, 109, 112, 47, 97, 46, 112, 110, 103]⟩
        initState.nextObjId).all
      (fun c => c.typ == ContentType.text) = true) ∧
      (pollTick initState Platform.linux
        ⟨false, [], false, [], false, [],
          true, [47, 116, 109, 112, 47, 97, 46, 112, 110, 103]⟩
        "t1".toList "aaaaaaaa".toList).writes = initState.writes :=
  ⟨by decide,
    c9_path_content_never_overwritten initState Platform.linux
      ⟨false, [], false, [], false, [],
        true, [47, 116, 109, 112, 47, 97, 46, 112, 110, 103]⟩
      "t1".toList "aaaaaaaa".toList (by decide)⟩

/-- C10: on every platform other than darwin the clipboard read yields
only text content or null — never image content — and consequently a poll
tick there never stores a file, never writes the clipboard and never
processes an image paste. -/
theorem c10_non_darwin_clipboard_text_only (p : Platform) (e : ExecResults)
    (st : HandlerState) (timestamp rand : Str) (hp : p ≠ Platform.darwin) :
    (getClipboardContent p e st.nextObjId).all
        (fun c => c.typ == ContentType.text) = true ∧
      (pollTick st p e timestamp rand).files = st.files ∧
      (pollTick st p e timestamp rand).writes = st.writes ∧
      (pollTick st p e timestamp rand).processedCount = st.processedCount := by
  have hall : (getClipboardContent p e st.nextObjId).all
      (fun c => c.typ == ContentType.text) = true := by
    cases p with
    | darwin => exact absurd rfl hp
    | win32 => cases hw : e.powershellOk <;> simp [getClipboardContent, hw]
    | linux => cases hw : e.xclipOk <;> simp [getClipboardContent, hw]
  exact ⟨hall, pollTick_preserves_of_text st p e timestamp rand hall⟩

/-- Witness for C10 on win32 with a successful text read. -/
theorem c10_non_darwin_clipboard_text_only_witness :
    (getClipboardContent Platform.win32
        ⟨false, [], false, [], true, [104, 105], false, []⟩
        initState.nextObjId).all
        (fun c => c.typ == ContentType.text) = true ∧
      (pollTick initState Platform.win32
          ⟨false, [], false, [], true, [104, 105], false, []⟩
          "t1".toList "aaaaaaaa".toList).files = initState.files ∧
      (pollTick initState Platform.win32
          ⟨false, [], false, [], true, [104, 105], false, []⟩
          "t1".toList "aaaaaaaa".toList).writes = initState.writes ∧
      (pollTick initState Platform.win32
          ⟨false, [], false, [], true, [104, 105], false, []⟩
          "t1".toList "aaaaaaaa".toList).processedCount =
        initState.processedCount :=
  c10_non_darwin_clipboard_text_only Platform.win32
    ⟨false, [], false, [], true, [104, 105], false, []⟩
    initState "t1".toList "aaaaaaaa".toList (by decide)

end KlipDot
